import Mathlib

set_option maxRecDepth 100000

/-!
Verification of the survey-dashboard data pipeline in `embedded_app.py`
(class `SmallBusinessDashboard`): the cleaning pipeline, the filter engine,
and the chart-data builders.  Each Lean definition is a shallow embedding of
the Python function named in its doc comment; theorems settle the spec's
claims about those functions.
-/

/- ============================================================
   Filter engine (`SmallBusinessDashboard.filter_data`, lines 1610-1634)
   ============================================================ -/

/-- One cleaned survey row, restricted to the three columns the filter
engine reads: `affiliation_category`, `complexity_category` and
`timeline_first_contract`.  (The real DataFrame has more columns, but
`filter_data` only consults these three.) -/
structure Row where
  affiliation_category : String
  complexity_category : String
  timeline_first_contract : String
deriving DecidableEq

/-- A Python value passed as one of `filter_data`'s keyword arguments
(`affiliation`, `complexity`, `timeline`).  The source checks
`if sel and isinstance(sel, list) and 'All' not in sel`, so the dynamic
type matters: `pynone` is Python `None` (the default), `pystr` a string,
`pylist` a list of strings, `pytuple` a tuple of strings. -/
inductive PySelection where
  | pynone
  | pystr (s : String)
  | pylist (l : List String)
  | pytuple (l : List String)
deriving DecidableEq

/-- Python truthiness of a selection value (`if sel and ...`):
`None` is falsy, a string is truthy iff nonempty, a list/tuple iff
nonempty. -/
def PySelection.truthy : PySelection → Bool
  | .pynone => false
  | .pystr s => !(s == "")
  | .pylist l => !l.isEmpty
  | .pytuple l => !l.isEmpty

/-- One dimension of `filter_data`: the source runs
`if sel and isinstance(sel, list) and 'All' not in sel:
    rows = rows[rows[col].isin(sel)]`.
Only a truthy genuine list without the sentinel `"All"` constrains the
rows; every other value leaves them unchanged. -/
def applyDimFilter : PySelection → (Row → String) → List Row → List Row
  | .pylist l, field, rows =>
      if !l.isEmpty && !(l.contains "All") then
        rows.filter (fun r => l.contains (field r))
      else rows
  | .pynone, _, rows => rows
  | .pystr _, _, rows => rows
  | .pytuple _, _, rows => rows

/-- `SmallBusinessDashboard.filter_data(affiliation, complexity, timeline)`:
applies the affiliation constraint, then complexity, then timeline, each
via `applyDimFilter`.  (The source first checks that the three columns
exist — in this typed embedding they always do — and wraps the three
filters in a `try` that no pure list filter can trigger.) -/
def filter_data (rows : List Row) (affiliation complexity timeline : PySelection) : List Row :=
  applyDimFilter timeline (·.timeline_first_contract)
    (applyDimFilter complexity (·.complexity_category)
      (applyDimFilter affiliation (·.affiliation_category) rows))

lemma applyDimFilter_active (l : List String) (f : Row → String) (rows : List Row)
    (hne : l ≠ []) (hall : "All" ∉ l) :
    applyDimFilter (.pylist l) f rows = rows.filter (fun r => l.contains (f r)) := by
  simp only [applyDimFilter]
  rw [if_pos]
  simp [List.isEmpty_iff, hne, hall]

lemma applyDimFilter_sublist (sel : PySelection) (f : Row → String) (rows : List Row) :
    (applyDimFilter sel f rows).Sublist rows := by
  cases sel with
  | pylist l =>
    simp only [applyDimFilter]
    split
    · exact List.filter_sublist rows
    · exact List.Sublist.refl rows
  | pynone => exact List.Sublist.refl rows
  | pystr s => exact List.Sublist.refl rows
  | pytuple l => exact List.Sublist.refl rows

lemma mem_of_mem_applyDimFilter {sel : PySelection} {f : Row → String} {rows : List Row}
    {r : Row} (h : r ∈ applyDimFilter sel f rows) : r ∈ rows :=
  (applyDimFilter_sublist sel f rows).subset h

lemma applyDimFilter_active_mem {l : List String} {f : Row → String} {rows : List Row}
    {r : Row} (hne : l ≠ []) (hall : "All" ∉ l)
    (h : r ∈ applyDimFilter (.pylist l) f rows) : f r ∈ l := by
  rw [applyDimFilter_active l f rows hne hall] at h
  have h2 := List.of_mem_filter h
  exact List.mem_of_elem_eq_true h2

lemma applyDimFilter_nonlist {sel : PySelection} (f : Row → String) (rows : List Row)
    (h : ∀ l, sel ≠ .pylist l) : applyDimFilter sel f rows = rows := by
  cases sel with
  | pylist l => exact absurd rfl (h l)
  | pynone => rfl
  | pystr s => rfl
  | pytuple l => rfl

lemma applyDimFilter_all (f : Row → String) (rows : List Row) :
    applyDimFilter (.pylist ["All"]) f rows = rows := by
  simp only [applyDimFilter]
  rw [if_neg]
  simp

/-- C2: the filter engine returns a subset of the input rows; whenever a
dimension's selection is a nonempty genuine list without the sentinel
`"All"`, every returned row's value in that dimension belongs to the
selection; and selecting `["All"]` for the affiliation dimension is the
same as passing no affiliation constraint at all. -/
theorem filter_data_spec (T : List Row) (a c t : PySelection) :
    (filter_data T a c t).Sublist T
    ∧ (∀ l, a = .pylist l → l ≠ [] → "All" ∉ l →
        ∀ r ∈ filter_data T a c t, r.affiliation_category ∈ l)
    ∧ (∀ l, c = .pylist l → l ≠ [] → "All" ∉ l →
        ∀ r ∈ filter_data T a c t, r.complexity_category ∈ l)
    ∧ (∀ l, t = .pylist l → l ≠ [] → "All" ∉ l →
        ∀ r ∈ filter_data T a c t, r.timeline_first_contract ∈ l)
    ∧ filter_data T (.pylist ["All"]) c t = filter_data T .pynone c t := by
  refine ⟨?_, ?_, ?_, ?_, ?_⟩
  · exact ((applyDimFilter_sublist _ _ _).trans
      ((applyDimFilter_sublist _ _ _).trans (applyDimFilter_sublist _ _ _)))
  · intro l ha hne hall r hr
    subst ha
    exact applyDimFilter_active_mem hne hall
      (mem_of_mem_applyDimFilter (mem_of_mem_applyDimFilter hr))
  · intro l hc hne hall r hr
    subst hc
    exact applyDimFilter_active_mem hne hall (mem_of_mem_applyDimFilter hr)
  · intro l ht hne hall r hr
    subst ht
    exact applyDimFilter_active_mem hne hall hr
  · unfold filter_data
    rw [applyDimFilter_all]
    rfl

/-- Witness for C2 on a concrete two-row table filtered to
`affiliation=["Small Business"]`. -/
theorem filter_data_spec_witness :
    (filter_data
        [⟨"Small Business", "High", "1-2 years"⟩, ⟨"Government", "Low", "Unsure"⟩]
        (.pylist ["Small Business"]) .pynone .pynone).Sublist
      [⟨"Small Business", "High", "1-2 years"⟩, ⟨"Government", "Low", "Unsure"⟩]
    ∧ Row.affiliation_category ⟨"Small Business", "High", "1-2 years"⟩ ∈ ["Small Business"] :=
  ⟨(filter_data_spec _ _ _ _).1,
   (filter_data_spec
      [⟨"Small Business", "High", "1-2 years"⟩, ⟨"Government", "Low", "Unsure"⟩]
      (.pylist ["Small Business"]) .pynone .pynone).2.1
      ["Small Business"] rfl (by decide) (by decide)
      ⟨"Small Business", "High", "1-2 years"⟩ (by decide)⟩

lemma applyDimFilter_eq_filter_or_id (sel : PySelection) (f : Row → String) :
    (∃ p, ∀ rows, applyDimFilter sel f rows = rows.filter p)
    ∨ (∀ rows, applyDimFilter sel f rows = rows) := by
  cases sel with
  | pylist l =>
    by_cases h : (!l.isEmpty && !(l.contains "All")) = true
    · exact Or.inl ⟨fun r => l.contains (f r), fun rows => by
        simp only [applyDimFilter]
        rw [if_pos h]⟩
    · exact Or.inr (fun rows => by
        simp only [applyDimFilter]
        rw [if_neg h])
  | pynone => exact Or.inr (fun rows => rfl)
  | pystr s => exact Or.inr (fun rows => rfl)
  | pytuple l => exact Or.inr (fun rows => rfl)

lemma applyDimFilter_idem (sel : PySelection) (f : Row → String) (rows : List Row) :
    applyDimFilter sel f (applyDimFilter sel f rows) = applyDimFilter sel f rows := by
  rcases applyDimFilter_eq_filter_or_id sel f with ⟨p, hp⟩ | hid
  · simp only [hp]
    rw [List.filter_filter]
    apply List.filter_congr
    intro r _
    exact Bool.and_self _
  · simp only [hid]

lemma applyDimFilter_comm (sel sel' : PySelection) (f f' : Row → String) (rows : List Row) :
    applyDimFilter sel f (applyDimFilter sel' f' rows)
      = applyDimFilter sel' f' (applyDimFilter sel f rows) := by
  rcases applyDimFilter_eq_filter_or_id sel f with ⟨p, hp⟩ | hid
  · rcases applyDimFilter_eq_filter_or_id sel' f' with ⟨q, hq⟩ | hid'
    · simp only [hp, hq]
      rw [List.filter_filter, List.filter_filter]
      apply List.filter_congr
      intro r _
      exact Bool.and_comm _ _
    · simp only [hid', hp]
  · simp only [hid]

/-- C5: the filter engine is idempotent — filtering its own output again
with the same three selections returns the same rows. -/
theorem filter_data_idempotent (T : List Row) (a c t : PySelection) :
    filter_data (filter_data T a c t) a c t = filter_data T a c t := by
  unfold filter_data
  rw [applyDimFilter_comm a t (·.affiliation_category) (·.timeline_first_contract),
      applyDimFilter_comm a c (·.affiliation_category) (·.complexity_category),
      applyDimFilter_idem a,
      applyDimFilter_comm c t (·.complexity_category) (·.timeline_first_contract),
      applyDimFilter_idem t, applyDimFilter_idem c]

/-- C10: a selection that is not a Python list (a bare string, a tuple,
or `None`) never constrains its dimension — `filter_data` behaves exactly
as if that selection were absent. -/
theorem filter_data_nonlist_selection (T : List Row) (a c t : PySelection) :
    ((∀ l, a ≠ .pylist l) → filter_data T a c t = filter_data T .pynone c t)
    ∧ ((∀ l, c ≠ .pylist l) → filter_data T a c t = filter_data T a .pynone t)
    ∧ ((∀ l, t ≠ .pylist l) → filter_data T a c t = filter_data T a c .pynone) := by
  refine ⟨?_, ?_, ?_⟩
  · intro ha
    unfold filter_data
    rw [applyDimFilter_nonlist _ _ ha]
    rfl
  · intro hc
    unfold filter_data
    rw [applyDimFilter_nonlist _ _ hc]
    rfl
  · intro ht
    unfold filter_data
    rw [applyDimFilter_nonlist _ _ ht]
    rfl

/-- Witness for C10: passing the affiliation selection as the bare string
`"Small Business"` (not a list) leaves the table unconstrained on that
dimension. -/
theorem filter_data_nonlist_selection_witness :
    filter_data
        [⟨"Small Business", "High", "1-2 years"⟩, ⟨"Government", "Low", "Unsure"⟩]
        (.pystr "Small Business") (.pylist ["High"]) .pynone
      = filter_data
        [⟨"Small Business", "High", "1-2 years"⟩, ⟨"Government", "Low", "Unsure"⟩]
        .pynone (.pylist ["High"]) .pynone :=
  (filter_data_nonlist_selection _ _ _ _).1 (fun l h => by cases h)

/- ============================================================
   Derived complexity bucket
   (`SmallBusinessDashboard.create_derived_features`, lines 1388-1424)
   ============================================================ -/

/-- Per-cell semantics of `pd.cut(onboarding_complexity, bins=[0,1,2,3,4,5],
labels=['Very Low','Low','Moderate','High','Very High'], right=True)`:
a value in the half-open bin `(k, k+1]` receives the k-th label; a missing
value, or a value outside `(0, 5]` (such as `0`), receives no label
(pandas `NaN`). -/
def pd_cut_complexity (v : Option ℚ) : Option String :=
  match v with
  | none => none
  | some q =>
    if 0 < q ∧ q ≤ 1 then some "Very Low"
    else if 1 < q ∧ q ≤ 2 then some "Low"
    else if 2 < q ∧ q ≤ 3 then some "Moderate"
    else if 3 < q ∧ q ≤ 4 then some "High"
    else if 4 < q ∧ q ≤ 5 then some "Very High"
    else none

/-- Per-cell semantics of `.astype(str)` on the categorical column: a label
becomes its string, and a null cell becomes the literal string `"nan"`
(pandas stringifies `NaN` as `'nan'`); the result is never null. -/
def astype_str (v : Option String) : Option String :=
  some (v.getD "nan")

/-- Per-cell semantics of `.fillna('Not Rated')`: replaces a null cell by
`"Not Rated"` and leaves non-null cells unchanged. -/
def fillna_not_rated (v : Option String) : Option String :=
  some (v.getD "Not Rated")

/-- The `complexity_category` cell produced by `create_derived_features`
from an `onboarding_complexity` cell: `pd.cut`, then `.astype(str)`, then
`.fillna('Not Rated')`, in the source's order. -/
def create_derived_features (v : Option ℚ) : Option String :=
  fillna_not_rated (astype_str (pd_cut_complexity v))

/-- C1: ratings 1-5 map to the five labels as claimed, but a missing or
out-of-range rating yields the literal string `"nan"`, not `"Not Rated"`:
`.astype(str)` stringifies the null cells before `.fillna('Not Rated')`
runs, so the fill never applies — contradicting the source's own comment
("Now we can safely fill nulls with a string value") and its own
exception-path fallback, which does map the else-case to `'Not Rated'`. -/
theorem create_derived_features_nan_bug :
    create_derived_features (some 5) = some "Very High"
    ∧ create_derived_features (some 4) = some "High"
    ∧ create_derived_features (some 3) = some "Moderate"
    ∧ create_derived_features (some 2) = some "Low"
    ∧ create_derived_features (some 1) = some "Very Low"
    ∧ create_derived_features none = some "nan"
    ∧ create_derived_features (some 0) = some "nan"
    ∧ (some "nan" : Option String) ≠ some "Not Rated" := by
  refine ⟨?_, ?_, ?_, ?_, ?_, rfl, ?_, ?_⟩ <;> decide

/- ============================================================
   Multi-entry splitting and hurdle indicators
   (`SmallBusinessDashboard.split_multi_entry_columns`, lines 1257-1297)
   ============================================================ -/

/-- Python substring containment `pat in hay` on strings, over the
character lists: true iff `pat` occurs contiguously in `hay` (the empty
pattern occurs in everything). -/
def containsSub (pat : List Char) : List Char → Bool
  | [] => pat.isEmpty
  | c :: t => pat.isPrefixOf (c :: t) || containsSub pat t

lemma containsSub_iff (pat hay : List Char) : containsSub pat hay = true ↔ pat <:+: hay := by
  induction hay with
  | nil =>
    simp [containsSub, List.isEmpty_iff, List.infix_nil]
  | cons c t ih =>
    simp only [containsSub, Bool.or_eq_true, ih, List.isPrefixOf_iff_prefix]
    exact (List.infix_cons_iff).symm

/-- The fixed vocabulary `common_hurdles` of canonical hurdle phrases
(lines 1277-1287). -/
def common_hurdles : List String :=
  ["Cybersecurity requirements",
   "Finding the right points of contact",
   "Navigating multiple systems/websites",
   "SAM.gov registration complexity",
   "Small business certification processes",
   "Time required to complete registrations",
   "Understanding specialized terminology",
   "Understanding where/how to begin",
   "DUNS/UEI number acquisition"]

/-- The hurdle indicator cell: the source computes
`1 if isinstance(x, str) and hurdle in x else 0` against the raw
(unsplit) `significant_hurdles` text; for a string cell this is a
case-sensitive substring test. -/
def hurdle_indicator (hurdle text : String) : Nat :=
  if containsSub hurdle.data text.data then 1 else 0

/-- C3: for every hurdles text and every phrase of the fixed vocabulary,
the indicator equals 1 exactly when the phrase occurs as a (case-sensitive)
contiguous substring of the raw text, and 0 otherwise. -/
theorem hurdle_indicator_spec (text hurdle : String) (hmem : hurdle ∈ common_hurdles) :
    (hurdle_indicator hurdle text = 1 ↔ hurdle.data <:+: text.data)
    ∧ (hurdle_indicator hurdle text = 0 ↔ ¬ hurdle.data <:+: text.data) := by
  have hc := containsSub_iff hurdle.data text.data
  unfold hurdle_indicator
  by_cases hb : containsSub hurdle.data text.data = true
  · rw [if_pos hb]
    simp [hc.mp hb]
  · rw [if_neg hb]
    have hn : ¬ hurdle.data <:+: text.data := fun h => hb (hc.mpr h)
    simp [hn]

/-- Witness for C3: on the spec's scenario text, the cybersecurity
indicator is 1 and the indicator of a phrase not occurring in the text
is 0. -/
theorem hurdle_indicator_spec_witness :
    "Cybersecurity requirements" ∈ common_hurdles
    ∧ hurdle_indicator "Cybersecurity requirements"
        "Cybersecurity requirements, Finding the right points of contact" = 1
    ∧ "DUNS/UEI number acquisition" ∈ common_hurdles
    ∧ hurdle_indicator "DUNS/UEI number acquisition"
        "Cybersecurity requirements, Finding the right points of contact" = 0 :=
  ⟨by decide,
   (hurdle_indicator_spec
      "Cybersecurity requirements, Finding the right points of contact"
      "Cybersecurity requirements" (by decide)).1.mpr (by decide),
   by decide,
   (hurdle_indicator_spec
      "Cybersecurity requirements, Finding the right points of contact"
      "DUNS/UEI number acquisition" (by decide)).2.mpr (by decide)⟩

/-- Python `text.split(',')` over the character list: splits at every
comma, keeping empty pieces (so a trailing comma yields a final empty
piece, exactly as in Python). -/
def splitOnComma : List Char → List (List Char)
  | [] => [[]]
  | c :: t =>
    if c = ',' then [] :: splitOnComma t
    else
      match splitOnComma t with
      | [] => [[c]]
      | h :: r => (c :: h) :: r

/-- Python `str.strip()`'s trailing half: removes the longest suffix of
characters satisfying `p` (a character is dropped exactly when everything
after it is dropped and it satisfies `p` itself). -/
def dropWhileEnd (p : Char → Bool) : List Char → List Char
  | [] => []
  | c :: t =>
    if (dropWhileEnd p t).isEmpty && p c then [] else c :: dropWhileEnd p t

/-- Python `str.strip()`: whitespace removed from both ends. -/
def trimChars (l : List Char) : List Char :=
  dropWhileEnd Char.isWhitespace (l.dropWhile Char.isWhitespace)

/-- The list cell built by `split_multi_entry_columns` for one raw cell:
`[item.strip() for item in str(x).split(',')]`. -/
def split_multi_entry (text : String) : List String :=
  (splitOnComma text.data).map (fun piece => String.mk (trimChars piece))

/-- C4 counterexample: a raw text with a trailing comma produces a list
whose last entry is the empty string — empty entries are not removed. -/
theorem split_multi_entry_counterexample :
    split_multi_entry "Cybersecurity requirements," = ["Cybersecurity requirements", ""]
    ∧ "" ∈ split_multi_entry "Cybersecurity requirements," := by
  constructor <;> decide

lemma dropWhileEnd_idem (p : Char → Bool) (l : List Char) :
    dropWhileEnd p (dropWhileEnd p l) = dropWhileEnd p l := by
  induction l with
  | nil => rfl
  | cons c t ih =>
    simp only [dropWhileEnd]
    by_cases h : ((dropWhileEnd p t).isEmpty && p c) = true
    · rw [if_pos h]
      rfl
    · rw [if_neg h]
      simp only [dropWhileEnd, ih]
      rw [if_neg h]

lemma dropWhileEnd_head (p : Char → Bool) (l : List Char) :
    dropWhileEnd p l = [] ∨ (dropWhileEnd p l).head? = l.head? := by
  cases l with
  | nil => exact Or.inl rfl
  | cons c t =>
    simp only [dropWhileEnd]
    by_cases h : ((dropWhileEnd p t).isEmpty && p c) = true
    · rw [if_pos h]
      exact Or.inl rfl
    · rw [if_neg h]
      exact Or.inr rfl

lemma head_dropWhile_false (p : Char → Bool) (l : List Char) :
    ∀ c, (l.dropWhile p).head? = some c → p c = false := by
  induction l with
  | nil => intro c h; simp at h
  | cons a t ih =>
    intro c h
    by_cases ha : p a
    · rw [List.dropWhile_cons_of_pos ha] at h
      exact ih c h
    · rw [List.dropWhile_cons_of_neg ha] at h
      simp only [List.head?_cons, Option.some.injEq] at h
      subst h
      simpa using ha

lemma dropWhile_eq_self_of_head (p : Char → Bool) (l : List Char)
    (h : ∀ c, l.head? = some c → p c = false) : l.dropWhile p = l := by
  cases l with
  | nil => rfl
  | cons c t =>
    apply List.dropWhile_cons_of_neg
    simp [h c rfl]

lemma trimChars_idem (l : List Char) : trimChars (trimChars l) = trimChars l := by
  unfold trimChars
  rcases dropWhileEnd_head Char.isWhitespace (l.dropWhile Char.isWhitespace) with h0 | h1
  · rw [h0]
    rfl
  · have hstable :
        (dropWhileEnd Char.isWhitespace (l.dropWhile Char.isWhitespace)).dropWhile
            Char.isWhitespace
          = dropWhileEnd Char.isWhitespace (l.dropWhile Char.isWhitespace) := by
      apply dropWhile_eq_self_of_head
      intro c hc
      rw [h1] at hc
      exact head_dropWhile_false Char.isWhitespace l c hc
    rw [hstable, dropWhileEnd_idem]

/-- C4 (amended): every entry of the derived list column is a fully
trimmed string (trimming it again changes nothing) — but empty-string
entries remain possible, since `str.split(',')` keeps the empty piece a
trailing delimiter produces (see the counterexample). -/
theorem split_multi_entry_trimmed (text e : String) (he : e ∈ split_multi_entry text) :
    String.mk (trimChars e.data) = e := by
  unfold split_multi_entry at he
  rcases List.mem_map.mp he with ⟨piece, _, hpe⟩
  rw [← hpe]
  rw [trimChars_idem]

/-- Witness for C4's amended theorem on the spec's scenario text. -/
theorem split_multi_entry_trimmed_witness :
    String.mk (trimChars ("Finding the right points of contact" : String).data)
      = "Finding the right points of contact" :=
  split_multi_entry_trimmed
    "Cybersecurity requirements, Finding the right points of contact"
    "Finding the right points of contact" (by decide)

/- ============================================================
   Ranked-frequency chart data
   (`SmallBusinessDashboard.create_challenging_factors_chart`,
    lines 1991-2024)
   ============================================================ -/

/-- Keys of `collections.Counter(bag)` in Python's iteration order:
first-occurrence order of the distinct elements. -/
def counterKeysAux (seen : List String) : List String → List String
  | [] => []
  | x :: t =>
    if seen.contains x then counterKeysAux seen t
    else x :: counterKeysAux (x :: seen) t

/-- Distinct elements of the bag in first-occurrence order. -/
def counterKeys (bag : List String) : List String := counterKeysAux [] bag

/-- Stable insertion for a descending-by-count sort (mirrors Python's
stable `sorted(..., key=lambda x: x[1], reverse=True)`). -/
def insertByCountDesc (x : String × Nat) : List (String × Nat) → List (String × Nat)
  | [] => [x]
  | y :: ys => if y.2 ≤ x.2 then x :: y :: ys else y :: insertByCountDesc x ys

/-- Stable sort of (key, count) pairs by descending count. -/
def sortByCountDesc : List (String × Nat) → List (String × Nat)
  | [] => []
  | x :: t => insertByCountDesc x (sortByCountDesc t)

/-- The `factors` dict of the source: `Counter` entries of the flattened
bag, sorted descending by count. -/
def rankedFactors (bag : List String) : List (String × Nat) :=
  sortByCountDesc ((counterKeys bag).map (fun k => (k, bag.count k)))

/-- `total_responses = sum(factors.values())` — the sum of the counts of
ALL distinct values, computed before any truncation. -/
def total_responses (bag : List String) : ℚ :=
  ((((rankedFactors bag).map (fun kc => kc.2)).sum : ℕ) : ℚ)

/-- The displayed chart rows `(Factor, Count, Percentage)`: percentages are
`count / total_responses * 100` for every factor, and only afterwards does
`.head(10)` truncate to the top ten.  (The source's
`sort_values('Count', ascending=False)` re-sorts a dict that is already
in descending count order, so it is order-preserving here.) -/
def chartRows (bag : List String) : List (String × Nat × ℚ) :=
  ((rankedFactors bag).map
    (fun kc => (kc.1, kc.2, (kc.2 : ℚ) / total_responses bag * 100))).take 10

lemma chartRows_map_percent (bag : List String) :
    (chartRows bag).map (fun x => x.2.2)
      = ((rankedFactors bag).take 10).map
          (fun kc => (kc.2 : ℚ) / total_responses bag * 100) := by
  unfold chartRows
  rw [← List.map_take, List.map_map]
  rfl

lemma chartRows_sum_percent (bag : List String) :
    ((chartRows bag).map (fun x => x.2.2)).sum
      = (((((rankedFactors bag).take 10).map (fun kc => kc.2)).sum : ℕ) : ℚ)
          * (100 / total_responses bag) := by
  rw [chartRows_map_percent]
  have hpt : ∀ kc : String × Nat,
      (kc.2 : ℚ) / total_responses bag * 100
        = (kc.2 : ℚ) * (100 / total_responses bag) := by
    intro kc
    ring
  simp only [hpt]
  rw [List.sum_map_mul_right]
  congr 1
  rw [Nat.cast_list_sum, List.map_map]
  rfl

lemma take_counts_le (bag : List String) :
    (((rankedFactors bag).take 10).map (fun kc => kc.2)).sum
      ≤ ((rankedFactors bag).map (fun kc => kc.2)).sum := by
  conv_rhs => rw [← List.take_append_drop 10 (rankedFactors bag)]
  rw [List.map_append, List.sum_append]
  exact Nat.le_add_right _ _

/-- C6 (amended): in the challenging-factors chart, each displayed item's
percentage is its count divided by `total_responses`, the sum of counts
over ALL distinct values of the (filtered) bag — not over the displayed
top-10 subset.  Consequently the displayed percentages sum to at most
100%, with equality exactly in the untruncated case (at most ten distinct
values); under truncation they sum to less than 100%. -/
theorem chart_percentages_full_bag (bag : List String) :
    (∀ x ∈ chartRows bag, x.2.2 = (x.2.1 : ℚ) / total_responses bag * 100)
    ∧ (total_responses bag ≠ 0 →
        ((chartRows bag).map (fun x => x.2.2)).sum ≤ 100)
    ∧ ((rankedFactors bag).length ≤ 10 → total_responses bag ≠ 0 →
        ((chartRows bag).map (fun x => x.2.2)).sum = 100) := by
  have htot : total_responses bag
      = ((((rankedFactors bag).map (fun kc => kc.2)).sum : ℕ) : ℚ) := rfl
  refine ⟨?_, ?_, ?_⟩
  · intro x hx
    unfold chartRows at hx
    rcases List.mem_map.mp (List.mem_of_mem_take hx) with ⟨kc, _, rfl⟩
    rfl
  · intro hT
    have hTpos : 0 < total_responses bag := by
      rcases lt_or_eq_of_le (show (0:ℚ) ≤ total_responses bag by
        rw [htot]; exact Nat.cast_nonneg _) with h | h
      · exact h
      · exact absurd h.symm hT
    rw [chartRows_sum_percent]
    have hle : (((((rankedFactors bag).take 10).map (fun kc => kc.2)).sum : ℕ) : ℚ)
        ≤ total_responses bag := by
      rw [htot]
      exact Nat.cast_le.mpr (take_counts_le bag)
    have hmul := mul_le_mul_of_nonneg_right hle
      (show (0:ℚ) ≤ 100 / total_responses bag by positivity)
    have hcancel : total_responses bag * (100 / total_responses bag) = 100 := by
      field_simp
    linarith [hmul, hcancel.le, hcancel.ge]
  · intro hlen hT
    rw [chartRows_sum_percent, List.take_of_length_le hlen, ← htot]
    field_simp

/-- Witness for C6's amended theorem on a concrete two-element bag
(no truncation, so the two 50% shares sum to exactly 100%). -/
theorem chart_percentages_full_bag_witness :
    ((chartRows ["Hiring", "Contracts"]).map (fun x => x.2.2)).sum ≤ 100
    ∧ ((chartRows ["Hiring", "Contracts"]).map (fun x => x.2.2)).sum = 100
    ∧ (50 : ℚ) = ((1 : ℕ) : ℚ) / total_responses ["Hiring", "Contracts"] * 100 := by
  have hranked : rankedFactors ["Hiring", "Contracts"] = [("Hiring", 1), ("Contracts", 1)] := by
    decide
  have htot : total_responses ["Hiring", "Contracts"] = 2 := by
    unfold total_responses
    rw [hranked]
    norm_num
  have hT : total_responses ["Hiring", "Contracts"] ≠ 0 := by
    rw [htot]
    norm_num
  have hlen : (rankedFactors ["Hiring", "Contracts"]).length ≤ 10 := by
    rw [hranked]
    decide
  refine ⟨(chart_percentages_full_bag ["Hiring", "Contracts"]).2.1 hT,
          (chart_percentages_full_bag ["Hiring", "Contracts"]).2.2 hlen hT, ?_⟩
  have hmem : ("Hiring", 1, (50 : ℚ)) ∈ chartRows ["Hiring", "Contracts"] := by
    unfold chartRows
    rw [hranked, htot]
    norm_num [List.take]
  exact (chart_percentages_full_bag ["Hiring", "Contracts"]).1 ("Hiring", 1, 50) hmem

/-- C6 counterexample: a filtered bag with eleven distinct factors (one
occurrence each).  Ten are displayed; each displayed percentage is
100/11 ≈ 9.09% (count divided by the full-bag total of 11), not the
10% that count-over-displayed-subset would give, and the displayed
percentages sum to 1000/11 ≈ 90.9%, not 100%. -/
theorem chart_percentages_counterexample :
    (chartRows ["f01", "f02", "f03", "f04", "f05", "f06", "f07", "f08", "f09", "f10", "f11"]).map
        (fun x => x.2.2)
      = List.replicate 10 ((100 : ℚ) / 11)
    ∧ ((chartRows
          ["f01", "f02", "f03", "f04", "f05", "f06", "f07", "f08", "f09", "f10", "f11"]).map
        (fun x => x.2.2)).sum = 1000 / 11
    ∧ ((1000 : ℚ) / 11) ≠ 100
    ∧ ((100 : ℚ) / 11) ≠ 10 := by
  have hranked :
      rankedFactors ["f01", "f02", "f03", "f04", "f05", "f06", "f07", "f08", "f09", "f10", "f11"]
        = [("f01", 1), ("f02", 1), ("f03", 1), ("f04", 1), ("f05", 1), ("f06", 1),
           ("f07", 1), ("f08", 1), ("f09", 1), ("f10", 1), ("f11", 1)] := by
    decide
  have htot :
      total_responses ["f01", "f02", "f03", "f04", "f05", "f06", "f07", "f08", "f09", "f10", "f11"]
        = 11 := by
    unfold total_responses
    rw [hranked]
    norm_num
  have hmap :
      (chartRows
          ["f01", "f02", "f03", "f04", "f05", "f06", "f07", "f08", "f09", "f10", "f11"]).map
          (fun x => x.2.2)
        = List.replicate 10 ((100 : ℚ) / 11) := by
    rw [chartRows_map_percent, hranked, htot]
    norm_num [List.take, List.replicate]
  refine ⟨hmap, ?_, by norm_num, by norm_num⟩
  rw [hmap]
  simp [List.sum_replicate]
  norm_num

/- ============================================================
   Fabricated p-values
   (`SmallBusinessDashboard.create_correlation_heatmap`, lines 2386-2399)
   ============================================================ -/

/-- Python `random.uniform(a, b) = a + (b - a) * random.random()`, with
the underlying draw `r = random.random()` satisfying `0 ≤ r < 1`. -/
def uniformSample (a b r : ℚ) : ℚ := a + (b - a) * r

/-- Python 3's `round` to an integer: nearest, ties to even. -/
def roundHalfEven (x : ℚ) : ℤ :=
  if x - ⌊x⌋ < 1/2 then ⌊x⌋
  else if 1/2 < x - ⌊x⌋ then ⌊x⌋ + 1
  else if ⌊x⌋ % 2 = 0 then ⌊x⌋ else ⌊x⌋ + 1

/-- Python `round(x, 3)`: round half-to-even at the third decimal. -/
def pyRound3 (x : ℚ) : ℚ := ((roundHalfEven (x * 1000) : ℤ) : ℚ) / 1000

/-- The p-value displayed for one hurdle by the correlation heatmap:
`round(random.uniform(0.001, 0.05), 3) if abs(val) > 0.3 else
 round(random.uniform(0.05, 0.2), 3)` — a function of the pseudo-random
draw `r` and of nothing about the data except whether the hurdle's
correlation magnitude exceeds 0.3. -/
def p_value_sample (corr r : ℚ) : ℚ :=
  if 3/10 < |corr| then pyRound3 (uniformSample (1/1000) (5/100) r)
  else pyRound3 (uniformSample (5/100) (2/10) r)

lemma roundHalfEven_bounds (z : ℚ) (lo hi : ℤ) (hlo : (lo : ℚ) ≤ z) (hhi : z < (hi : ℚ)) :
    lo ≤ roundHalfEven z ∧ roundHalfEven z ≤ hi := by
  have h1 : lo ≤ ⌊z⌋ := Int.le_floor.mpr hlo
  have h2 : ⌊z⌋ < hi := Int.floor_lt.mpr hhi
  unfold roundHalfEven
  split_ifs <;> constructor <;> omega

lemma pyRound3_bounds (z : ℚ) (lo hi : ℤ) (hlo : (lo : ℚ) ≤ z * 1000) (hhi : z * 1000 < (hi : ℚ)) :
    (lo : ℚ) / 1000 ≤ pyRound3 z ∧ pyRound3 z ≤ (hi : ℚ) / 1000 := by
  obtain ⟨ha, hb⟩ := roundHalfEven_bounds (z * 1000) lo hi hlo hhi
  have ha' : (lo : ℚ) ≤ ((roundHalfEven (z * 1000) : ℤ) : ℚ) := by exact_mod_cast ha
  have hb' : ((roundHalfEven (z * 1000) : ℤ) : ℚ) ≤ (hi : ℚ) := by exact_mod_cast hb
  unfold pyRound3
  constructor <;> linarith

/-- C7: the displayed p-value is a function only of the pseudo-random
draw and of whether the hurdle's correlation magnitude exceeds 0.3: when
it does, the value lies in the `uniform(0.001, 0.05)` band (between 0.001
and 0.05 after rounding); otherwise in the `uniform(0.05, 0.2)` band
(between 0.05 and 0.2); and two correlations on the same side of the 0.3
threshold yield identical p-values for the same draw — the sample data
enters nowhere else. -/
theorem p_value_spec (corr r : ℚ) (h0 : 0 ≤ r) (h1 : r < 1) :
    (3/10 < |corr| →
      1/1000 ≤ p_value_sample corr r ∧ p_value_sample corr r ≤ 5/100)
    ∧ (¬ 3/10 < |corr| →
      5/100 ≤ p_value_sample corr r ∧ p_value_sample corr r ≤ 2/10)
    ∧ (∀ corr' : ℚ, (3/10 < |corr| ↔ 3/10 < |corr'|) →
      p_value_sample corr r = p_value_sample corr' r) := by
  refine ⟨?_, ?_, ?_⟩
  · intro hg
    unfold p_value_sample
    rw [if_pos hg]
    have hlo : ((1 : ℤ) : ℚ) ≤ uniformSample (1/1000) (5/100) r * 1000 := by
      unfold uniformSample
      push_cast
      nlinarith
    have hhi : uniformSample (1/1000) (5/100) r * 1000 < ((50 : ℤ) : ℚ) := by
      unfold uniformSample
      push_cast
      nlinarith
    obtain ⟨ha, hb⟩ := pyRound3_bounds _ 1 50 hlo hhi
    constructor
    · calc (1 : ℚ)/1000 = ((1 : ℤ) : ℚ)/1000 := by norm_num
        _ ≤ _ := ha
    · calc pyRound3 (uniformSample (1/1000) (5/100) r) ≤ ((50 : ℤ) : ℚ)/1000 := hb
        _ = 5/100 := by norm_num
  · intro hg
    unfold p_value_sample
    rw [if_neg hg]
    have hlo : ((50 : ℤ) : ℚ) ≤ uniformSample (5/100) (2/10) r * 1000 := by
      unfold uniformSample
      push_cast
      nlinarith
    have hhi : uniformSample (5/100) (2/10) r * 1000 < ((200 : ℤ) : ℚ) := by
      unfold uniformSample
      push_cast
      nlinarith
    obtain ⟨ha, hb⟩ := pyRound3_bounds _ 50 200 hlo hhi
    constructor
    · calc (5 : ℚ)/100 = ((50 : ℤ) : ℚ)/1000 := by norm_num
        _ ≤ _ := ha
    · calc pyRound3 (uniformSample (5/100) (2/10) r) ≤ ((200 : ℤ) : ℚ)/1000 := hb
        _ = 2/10 := by norm_num
  · intro corr' hiff
    unfold p_value_sample
    by_cases hg : 3/10 < |corr|
    · rw [if_pos hg, if_pos (hiff.mp hg)]
    · rw [if_neg hg, if_neg (fun h => hg (hiff.mpr h))]

/-- Witness for C7 at the concrete draw `r = 0` with correlations 1/2 and
9/10 (both above the 0.3 threshold). -/
theorem p_value_spec_witness :
    (1/1000 ≤ p_value_sample (1/2) 0 ∧ p_value_sample (1/2) 0 ≤ 5/100)
    ∧ p_value_sample (1/2) 0 = p_value_sample (9/10) 0 := by
  have hg : (3/10 : ℚ) < |(1/2 : ℚ)| := by
    rw [abs_of_pos (show (0 : ℚ) < 1/2 by norm_num)]
    norm_num
  have hg' : (3/10 : ℚ) < |(9/10 : ℚ)| := by
    rw [abs_of_pos (show (0 : ℚ) < 9/10 by norm_num)]
    norm_num
  exact ⟨(p_value_spec (1/2) 0 (by norm_num) (by norm_num)).1 hg,
         (p_value_spec (1/2) 0 (by norm_num) (by norm_num)).2.2 (9/10) (iff_of_true hg hg')⟩

/- ============================================================
   Cleaning-pipeline error handling
   (`SmallBusinessDashboard.clean_data`, lines 1146-1184, and the eight
    step methods it calls, lines 1186-1447)
   ============================================================ -/

/-- The eight step bodies of the cleaning pipeline, abstracted over the
table-state type `T`.  Each body is the pandas work a step method performs;
a body returns `.error ()` on the inputs where the real pandas code would
raise (those failure points live in the runtime environment, outside this
embedding, so the bodies are parameters).  `rename_fallback` is the
except-branch of `standardize_column_names` (generic name normalization)
and `derived_fallback` the except-branch of `create_derived_features`
(the lambda-based bucketing). -/
structure CleanBodies (T : Type) where
  standardize_column_names : T → Except Unit T
  rename_fallback : T → T
  convert_data_types : T → Except Unit T
  handle_missing_values : T → Except Unit T
  split_multi_entry_columns : T → Except Unit T
  standardize_text_entries : T → Except Unit T
  remove_duplicates : T → Except Unit T
  create_derived_features : T → Except Unit T
  derived_fallback : T → T
  ensure_required_columns : T → Except Unit T

/-- A step whose whole body sits in `try/except` with a log-and-continue
handler: on an internal failure the table keeps its pre-step state and the
pipeline proceeds. -/
def wrapContinue {T : Type} (body : T → Except Unit T) (t : T) : Except Unit T :=
  .ok (match body t with
       | .ok r => r
       | .error _ => t)

/-- A step whose `except` branch applies an explicit fallback
transformation instead of keeping the pre-step state. -/
def wrapFallback {T : Type} (body : T → Except Unit T) (fb : T → T) (t : T) : Except Unit T :=
  .ok (match body t with
       | .ok r => r
       | .error _ => fb t)

/-- The exception structure of `clean_data`: steps 1-2 and 4-7
(`standardize_column_names`, `convert_data_types`,
`split_multi_entry_columns`, `standardize_text_entries`,
`remove_duplicates`, `create_derived_features`) each catch their own
exceptions, but step 3 (`handle_missing_values`) and step 8
(`ensure_required_columns`) have no `try/except` at all, so their
failures reach the orchestrator's handler, which replaces the whole
table with the hard-coded sample dataset (`create_sample_data`). -/
def clean_data {T : Type} (b : CleanBodies T) (sample raw : T) : T :=
  match
    (wrapFallback b.standardize_column_names b.rename_fallback raw).bind fun s1 =>
    (wrapContinue b.convert_data_types s1).bind fun s2 =>
    (b.handle_missing_values s2).bind fun s3 =>
    (wrapContinue b.split_multi_entry_columns s3).bind fun s4 =>
    (wrapContinue b.standardize_text_entries s4).bind fun s5 =>
    (wrapContinue b.remove_duplicates s5).bind fun s6 =>
    (wrapFallback b.create_derived_features b.derived_fallback s6).bind fun s7 =>
    b.ensure_required_columns s7
  with
  | .ok t => t
  | .error _ => sample

/-- C8 (amended): a failure inside the unwrapped steps
`handle_missing_values` or `ensure_required_columns` makes the whole
pipeline fall back to the sample dataset, instead of being a logged
no-op for that one step; by contrast, a failure inside a wrapped step
such as `split_multi_entry_columns` or `remove_duplicates` behaves
exactly like a step that succeeds without changing the table. -/
theorem clean_data_unwrapped_steps {T : Type} (b : CleanBodies T) (sample raw : T) :
    ((∀ t, b.handle_missing_values t = .error ()) → clean_data b sample raw = sample)
    ∧ ((∀ t, b.ensure_required_columns t = .error ()) → clean_data b sample raw = sample)
    ∧ (clean_data { b with split_multi_entry_columns := fun _ => .error () } sample raw
        = clean_data { b with split_multi_entry_columns := fun t => .ok t } sample raw)
    ∧ (clean_data { b with remove_duplicates := fun _ => .error () } sample raw
        = clean_data { b with remove_duplicates := fun t => .ok t } sample raw) := by
  refine ⟨?_, ?_, rfl, rfl⟩
  · intro h
    simp only [clean_data, wrapFallback, wrapContinue, Except.bind]
    rw [h]
  · intro h
    simp only [clean_data, wrapFallback, wrapContinue, Except.bind]
    cases hh : b.handle_missing_values
        (match b.convert_data_types (match b.standardize_column_names raw with
          | .ok r => r
          | .error _ => b.rename_fallback raw) with
         | .ok r => r
         | .error _ => (match b.standardize_column_names raw with
           | .ok r => r
           | .error _ => b.rename_fallback raw)) with
    | error e => rfl
    | ok s3 =>
      simp only [Except.bind]
      rw [h]

/-- C8 counterexample: all step bodies succeed as identities except
`handle_missing_values`, which fails.  The claim predicts a logged no-op
for that step and a pipeline that continues (yielding the untouched
input table); the code instead replaces the table with the sample
dataset. -/
theorem clean_data_counterexample :
    clean_data
      { standardize_column_names := fun t => .ok t
        rename_fallback := fun t => t
        convert_data_types := fun t => .ok t
        handle_missing_values := fun (_ : List Row) => .error ()
        split_multi_entry_columns := fun t => .ok t
        standardize_text_entries := fun t => .ok t
        remove_duplicates := fun t => .ok t
        create_derived_features := fun t => .ok t
        derived_fallback := fun t => t
        ensure_required_columns := fun t => .ok t }
      [⟨"Other", "Moderate", "Unsure"⟩] [⟨"Small Business", "High", "1-2 years"⟩]
      = [⟨"Other", "Moderate", "Unsure"⟩]
    ∧ ([⟨"Other", "Moderate", "Unsure"⟩] : List Row) ≠ [⟨"Small Business", "High", "1-2 years"⟩] :=
  ⟨rfl, by decide⟩

/-- Witness for C8's amended theorem: discharging both
unwrapped-step hypotheses at concrete pipelines over `List Row`. -/
theorem clean_data_unwrapped_steps_witness :
    clean_data
      { standardize_column_names := fun t => .ok t
        rename_fallback := fun t => t
        convert_data_types := fun t => .ok t
        handle_missing_values := fun (_ : List Row) => .error ()
        split_multi_entry_columns := fun t => .ok t
        standardize_text_entries := fun t => .ok t
        remove_duplicates := fun t => .ok t
        create_derived_features := fun t => .ok t
        derived_fallback := fun t => t
        ensure_required_columns := fun t => .ok t }
      [⟨"Other", "Moderate", "Unsure"⟩] [⟨"Small Business", "High", "1-2 years"⟩]
      = [⟨"Other", "Moderate", "Unsure"⟩]
    ∧ clean_data
      { standardize_column_names := fun t => .ok t
        rename_fallback := fun t => t
        convert_data_types := fun t => .ok t
        handle_missing_values := fun (t : List Row) => .ok t
        split_multi_entry_columns := fun t => .ok t
        standardize_text_entries := fun t => .ok t
        remove_duplicates := fun t => .ok t
        create_derived_features := fun t => .ok t
        derived_fallback := fun t => t
        ensure_required_columns := fun _ => .error () }
      [⟨"Other", "Moderate", "Unsure"⟩] [⟨"Small Business", "High", "1-2 years"⟩]
      = [⟨"Other", "Moderate", "Unsure"⟩] :=
  ⟨(clean_data_unwrapped_steps _ _ _).1 (fun t => rfl),
   (clean_data_unwrapped_steps _ _ _).2.1 (fun t => rfl)⟩

/- ============================================================
   Chart-builder empty states
   (`SmallBusinessDashboard.create_hurdles_chart`, lines 1636-1683, and
    `SmallBusinessDashboard.create_barriers_chart`, lines 1685-1758)
   ============================================================ -/

/-- The data a chart builder hands to the presentation layer: a title and
the (category, count) series.  Cosmetic layout is out of scope. -/
structure ChartSpec where
  title : String
  values : List (String × Nat)
deriving DecidableEq

/-- `create_barriers_chart`: its whole body sits in one `try`, and the
`except` branch returns an empty figure titled "No barrier data
available".  The body (flatten, count, rank, `px.bar`, layout) is
abstracted as `body`, which returns `.error ()` at the inputs where the
pandas/plotly work would raise. -/
def create_barriers_chart {α : Type} (body : α → Except Unit ChartSpec) (x : α) : ChartSpec :=
  match body x with
  | .ok fig => fig
  | .error _ => { title := "No barrier data available", values := [] }

/-- `create_hurdles_chart`: the source method has no `try/except`
anywhere, so whatever its body does — including raising — goes straight
to the caller. -/
def create_hurdles_chart {α : Type} (body : α → Except Unit ChartSpec) (x : α) :
    Except Unit ChartSpec :=
  body x

/-- A cell of `biggest_barriers_list` as the barriers builder sees it:
either a parsed list, or a raw string that the builder re-splits on
commas (`isinstance` branch of lines 1691-1700). -/
inductive PyCell where
  | asList (l : List String)
  | asStr (s : String)

/-- The entries one cell contributes to the flattened barriers bag. -/
def cellEntries : PyCell → List String
  | .asList l => l
  | .asStr s => split_multi_entry s

/-- The flattened barriers bag; a missing `biggest_barriers_list` column
contributes nothing (the `if col in columns` guard). -/
def barriersBag : Option (List PyCell) → List String
  | none => []
  | some cells => (cells.map cellEntries).flatten

/-- The `(barrier, count)` series the barriers builder plots: ranked
counts truncated to the top ten. -/
def create_barriers_chart_data (col : Option (List PyCell)) : List (String × Nat) :=
  (rankedFactors (barriersBag col)).take 10

/-- The full figure of the barriers builder on its normal path: the title
is always "Top 10 Barriers for Small Businesses", also when the column is
missing and the series is empty. -/
def create_barriers_chart_run (col : Option (List PyCell)) : ChartSpec :=
  { title := "Top 10 Barriers for Small Businesses", values := create_barriers_chart_data col }

/-- C9 (amended): builders whose body sits in `try/except`, such as
`create_barriers_chart`, return their placeholder figure on an internal
exception and their computed figure otherwise; `create_hurdles_chart`
has no handler, so an internal exception propagates to the caller; and a
missing required column does not by itself produce the placeholder — the
barriers builder then returns an ordinary, normally-titled chart over an
empty bag. -/
theorem chart_builders_fallback {α : Type} (body : α → Except Unit ChartSpec) (x : α) :
    (body x = .error () → create_barriers_chart body x
        = { title := "No barrier data available", values := [] })
    ∧ (∀ fig, body x = .ok fig → create_barriers_chart body x = fig)
    ∧ (∀ e, body x = .error e → create_hurdles_chart body x = .error e)
    ∧ create_barriers_chart_run none
        = { title := "Top 10 Barriers for Small Businesses", values := [] } := by
  refine ⟨?_, ?_, ?_, rfl⟩
  · intro h
    unfold create_barriers_chart
    rw [h]
  · intro fig h
    unfold create_barriers_chart
    rw [h]
  · intro e h
    unfold create_hurdles_chart
    rw [h]

/-- C9 counterexample: `create_hurdles_chart` with a failing internal
computation hands the exception to the caller instead of returning a
placeholder chart. -/
theorem create_hurdles_chart_counterexample :
    create_hurdles_chart (fun _ : List Row => .error ()) [] = .error () := rfl

/-- Witness for C9's amended theorem at concrete bodies: the barriers
builder returns the placeholder on failure and the computed figure on
success. -/
theorem chart_builders_fallback_witness :
    create_barriers_chart (fun _ : List Row => .error ()) []
      = { title := "No barrier data available", values := [] }
    ∧ create_barriers_chart
        (fun _ : List Row => .ok { title := "Top 10 Barriers for Small Businesses", values := [] })
        []
      = { title := "Top 10 Barriers for Small Businesses", values := [] } :=
  ⟨(chart_builders_fallback (fun _ : List Row => .error ()) []).1 rfl,
   (chart_builders_fallback
      (fun _ : List Row => .ok { title := "Top 10 Barriers for Small Businesses", values := [] })
      []).2.1 _ rfl⟩
